import Mathlib

/-!
Shallow embedding of the unittest-style grader core
(src/unittest_style_grader: utsg_types.py, utsg_testcase.py, utsg_test_result.py).

Floats are modelled as rationals, Python Optional values as Option, the
mutable recorder object (UTSGTestResult) as an explicit state record, and
exception-raising paths as Except.  Where a Python method mutates one of its
arguments, the Lean function returns the updated value alongside its result.
-/

set_option synthInstance.maxSize 2000

deriving instance DecidableEq for Except

namespace UTSG

/-- utsg_types.UTSGTestStatus. -/
inductive UTSGTestStatus where
  | PASSED
  | FAILED
  | CRASHED
  | RUNNING
  | SCHEDULED
deriving DecidableEq, Repr

/-- A status in the terminal set of the outcome state machine. -/
def isTerminal : UTSGTestStatus → Bool
  | .PASSED => true
  | .FAILED => true
  | .CRASHED => true
  | _ => false

/-- Position of a status along SCHEDULED → RUNNING → terminal. -/
def statusRank : UTSGTestStatus → Nat
  | .SCHEDULED => 0
  | .RUNNING => 1
  | _ => 2

/-- utsg_types.PrairieLearnImage: a label/url pair. -/
def PrairieLearnImage := String × String
deriving DecidableEq, Repr

/-- utsg_testcase.UTSGTestCaseInfo, with the dataclass defaults.
The status field embeds the Python attribute named with a leading underscore. -/
structure UTSGTestCaseInfo where
  name : String := "Unnamed Test"
  description : Option String := none
  max_points : ℚ := 1
  points_lost_on_failure : ℚ := 0
  include_in_results : Bool := true
  hidden : Bool := false
  points : Option ℚ := none
  message : Option String := none
  output : Option String := none
  images : List PrairieLearnImage := []
  status : UTSGTestStatus := .SCHEDULED
deriving DecidableEq, Repr

/-- utsg_types.PrairieLearnTestCaseJsonDict: name, max_points and points are
always present; the optional keys are present only when truthy. -/
structure PrairieLearnTestCaseJsonDict where
  name : String
  max_points : ℚ
  points : Option ℚ
  description : Option String := none
  message : Option String := none
  output : Option String := none
  images : List PrairieLearnImage := []
deriving DecidableEq, Repr

/-- Python truthiness of an optional string: kept only when present and
non-empty (an absent key is modelled as none). -/
def truthyStr : Option String → Option String
  | none => none
  | some s => if s = "" then none else some s

/-- UTSGTestCaseInfo.as_prairielearn_json_dict: keep the required keys
(name, max_points, points) and each optional key only if its value is truthy. -/
def as_prairielearn_json_dict (t : UTSGTestCaseInfo) : PrairieLearnTestCaseJsonDict :=
  { name := t.name
    max_points := t.max_points
    points := t.points
    description := truthyStr t.description
    message := truthyStr t.message
    output := truthyStr t.output
    images := t.images }

/-- utsg_test_result.UTSGRunSummary (the dataclass fields; the non-init
fields default to zero and are filled in by the post-init pass). -/
structure UTSGRunSummary where
  tests : List UTSGTestCaseInfo
  num_tests_available : Nat := 0
  num_tests_ran : Nat := 0
  num_tests_passed : Nat := 0
  num_tests_failed : Nat := 0
  points_available : ℚ := 0
  points_earned : ℚ := 0
deriving DecidableEq, Repr

/-- One iteration of the loop in UTSGRunSummary.__post_init__ for a single
test.  points_earned adds the test's points for PASSED/FAILED outcomes;
outcomes filed by the recorder always carry some points (Python would raise
TypeError on a None there, a branch unreachable through the recorder), so the
None case contributes zero. -/
def postInitStep (acc : UTSGRunSummary) (test : UTSGTestCaseInfo) : UTSGRunSummary :=
  let acc := { acc with
    num_tests_available := acc.num_tests_available + 1
    points_available := acc.points_available + test.max_points }
  let acc := if test.status = .PASSED ∨ test.status = .FAILED ∨ test.status = .CRASHED then
      { acc with num_tests_ran := acc.num_tests_ran + 1 } else acc
  let acc := if test.status = .PASSED ∨ test.status = .FAILED then
      { acc with points_earned := acc.points_earned + test.points.getD 0 } else acc
  if test.status = .PASSED then
    { acc with num_tests_passed := acc.num_tests_passed + 1 }
  else if test.status = .FAILED then
    { acc with num_tests_failed := acc.num_tests_failed + 1 }
  else acc

/-- Constructing a UTSGRunSummary from a list of test infos:
the dataclass constructor followed by __post_init__. -/
def mkRunSummary (tests : List UTSGTestCaseInfo) : UTSGRunSummary :=
  tests.foldl postInitStep { tests := tests }

/-- UTSGRunSummary.__add__.  In the source, copy.copy(self) copies field
references, so total.tests is the very list object held by self.tests and the
subsequent extend call also mutates self's list (the numeric fields of self
are untouched: the += statements rebind them on total only, and other is never
written).  The function therefore returns the pair (total, self after the
call); the other argument is left unchanged by the Python code. -/
def addSummary (self other : UTSGRunSummary) : UTSGRunSummary × UTSGRunSummary :=
  let extended := self.tests ++ other.tests
  ({ tests := extended
     num_tests_available := self.num_tests_available + other.num_tests_available
     num_tests_ran := self.num_tests_ran + other.num_tests_ran
     num_tests_passed := self.num_tests_passed + other.num_tests_passed
     num_tests_failed := self.num_tests_failed + other.num_tests_failed
     points_available := self.points_available + other.points_available
     points_earned := self.points_earned + other.points_earned },
   { self with tests := extended })

/-- The Python exceptions the embedding distinguishes: AssertionError
(test-failure signalling) versus every other exception class. -/
inductive PyExc where
  | assertionError
  | other
deriving DecidableEq, Repr

/-- The slice of utsg_testcase.UTSGTestCase the recorder reads: the test's own
info record, the infos of its registered sub-tests (utsg_subtests holds the
UTSGSubTest wrappers; each wrapper's state beyond its info is irrelevant to
the recorder), the class-level score bounds and the class-level
message/output/images attributes. -/
structure UTSGTestCase where
  utsg_test_case_info : UTSGTestCaseInfo
  utsg_subtests : List UTSGTestCaseInfo := []
  utsg_score_floor : ℚ := 0
  utsg_score_ceiling : ℚ := 1
  message : Option String := none
  output : Option String := none
  images : List PrairieLearnImage := []
deriving DecidableEq, Repr

/-- The mutable state of utsg_test_result.UTSGTestResult after startTestRun:
the score bounds, the three partitions, the scored flag, the keys of the
utsg_results dictionary (gradable, score, tests, message, output, images) and
the inherited unittest stop flag set by self.stop(). -/
structure UTSGTestResult where
  utsg_score_floor : ℚ := 0
  utsg_score_ceiling : ℚ := 1
  visible_tests_info : List UTSGTestCaseInfo := []
  hidden_tests_info : List UTSGTestCaseInfo := []
  excluded_tests_info : List UTSGTestCaseInfo := []
  scored : Bool := false
  gradable : Bool := true
  score : ℚ := 0
  recorded_tests : List PrairieLearnTestCaseJsonDict := []
  message : Option String := none
  output : Option String := none
  images : List PrairieLearnImage := []
  stopped : Bool := false
deriving DecidableEq, Repr

/-- The utsg_score_floor property setter: rejects values outside [0, 1]. -/
def set_utsg_score_floor (s : UTSGTestResult) (score_floor : ℚ) :
    Except String UTSGTestResult :=
  if score_floor < 0 then .error "The score floor cannot be set below 0.0"
  else if score_floor > 1 then .error "The score floor cannot be set above 1.0"
  else .ok { s with utsg_score_floor := score_floor }

/-- The utsg_score_ceiling property setter: rejects values outside [0, 1]. -/
def set_utsg_score_ceiling (s : UTSGTestResult) (score_ceiling : ℚ) :
    Except String UTSGTestResult :=
  if score_ceiling < 0 then .error "The score floor cannot be set below 0.0"
  else if score_ceiling > 1 then .error "The score floor cannot be set above 1.0"
  else .ok { s with utsg_score_ceiling := score_ceiling }

/-- UTSGTestResult._log_test_result: file a completed test into exactly one of
the three partitions, keyed on include_in_results first, then hidden. -/
def _log_test_result (s : UTSGTestResult) (test : UTSGTestCaseInfo) : UTSGTestResult :=
  if !test.include_in_results then
    { s with excluded_tests_info := s.excluded_tests_info ++ [test] }
  else if test.hidden then
    { s with hidden_tests_info := s.hidden_tests_info ++ [test] }
  else
    { s with visible_tests_info := s.visible_tests_info ++ [test] }

/-- The mutation UTSGTestResult._log_failure performs on the test info:
status becomes FAILED, unset points default to -points_lost_on_failure,
an unset message defaults to "Failed name". -/
def _log_failure_info (test : UTSGTestCaseInfo) : UTSGTestCaseInfo :=
  let test := { test with status := .FAILED }
  let test := if test.points = none then
      { test with points := some (-test.points_lost_on_failure) } else test
  if test.message = none then
    { test with message := some ("Failed " ++ test.name) } else test

/-- UTSGTestResult._log_failure: mutate the info, then file it. -/
def _log_failure (s : UTSGTestResult) (test : UTSGTestCaseInfo) :
    UTSGTestResult × UTSGTestCaseInfo :=
  let t := _log_failure_info test
  (_log_test_result s t, t)

/-- The mutation UTSGTestResult._log_success performs on the test info:
status becomes PASSED, unset points default to max_points, an unset message
defaults to "Passed name". -/
def _log_success_info (test : UTSGTestCaseInfo) : UTSGTestCaseInfo :=
  let test := { test with status := .PASSED }
  let test := if test.points = none then
      { test with points := some test.max_points } else test
  if test.message = none then
    { test with message := some ("Passed " ++ test.name) } else test

/-- UTSGTestResult._log_success: mutate the info, then file it. -/
def _log_success (s : UTSGTestResult) (test : UTSGTestCaseInfo) :
    UTSGTestResult × UTSGTestCaseInfo :=
  let t := _log_success_info test
  (_log_test_result s t, t)

/-- UTSGTestResult.startTest: push the test's class-level score bounds through
the two property setters, then mark the test RUNNING. -/
def startTest (s : UTSGTestResult) (test : UTSGTestCase) :
    Except String (UTSGTestResult × UTSGTestCase) := do
  let s ← set_utsg_score_floor s test.utsg_score_floor
  let s ← set_utsg_score_ceiling s test.utsg_score_ceiling
  pure (s, { test with utsg_test_case_info :=
    { test.utsg_test_case_info with status := .RUNNING } })

/-- UTSGTestResult.stopTest: copy the truthy class-level images/message/output
onto the recorder, file every sub-test by its status (PASSED through
_log_success, FAILED or CRASHED through _log_failure, anything else is only
reported on the console), and finally file the test itself as a success if its
own status is still RUNNING. -/
def stopTest (s : UTSGTestResult) (test : UTSGTestCase) : UTSGTestResult :=
  let s := if test.images ≠ [] then { s with images := test.images } else s
  let s := match test.message with
    | some m => if m ≠ "" then { s with message := some m } else s
    | none => s
  let s := match test.output with
    | some o => if o ≠ "" then { s with output := some o } else s
    | none => s
  let s := test.utsg_subtests.foldl (fun s sub =>
    if sub.status = .PASSED then (_log_success s sub).1
    else if sub.status = .FAILED ∨ sub.status = .CRASHED then (_log_failure s sub).1
    else s) s
  if test.utsg_test_case_info.status = .RUNNING then
    (_log_success s test.utsg_test_case_info).1
  else s

/-- The crash_template of UTSGTestResult.addError with its three format slots
filled in. -/
def crash_template (name reason extra_info : String) : String :=
  name ++ " CRASHED for the following reason\n" ++ reason ++ extra_info

/-- The extra_info computed in addError: the previous truthy output, if any,
behind a separator. -/
def sep_orig : Option String → String
  | none => ""
  | some x => if x = "" then "" else "\n\n--------Original Output--------\n" ++ x

/-- The sub-test scan in addError: the first sub-test whose status is CRASHED,
if any. -/
def firstCrashedSubtest (test : UTSGTestCase) : Option UTSGTestCaseInfo :=
  test.utsg_subtests.find? (fun t => decide (t.status = .CRASHED))

/-- The name addError reports at run level: the culprit is the first CRASHED
sub-test if one exists, else the test itself. -/
def addErrorCulpritName (test : UTSGTestCase) : String :=
  match firstCrashedSubtest test with
  | some c => c.name
  | none => test.utsg_test_case_info.name

/-- Rewrite the output of the first CRASHED sub-test in the list to the crash
diagnostic (preserving its prior truthy output behind the separator);
none when no sub-test crashed. -/
def updateFirstCrashed (reason : String) :
    List UTSGTestCaseInfo → Option (List UTSGTestCaseInfo)
  | [] => none
  | t :: rest =>
    if t.status = .CRASHED then
      let diag := crash_template "This test" reason (sep_orig t.output)
      some ({ t with output := some diag } :: rest)
    else
      match updateFirstCrashed reason rest with
      | some rest2 => some (t :: rest2)
      | none => none

/-- The mutation addError performs on the test object (the has-info branch):
mark the test CRASHED and store the crash diagnostic as the culprit's output
(the first CRASHED sub-test when present, otherwise the test itself, the
latter reported under the name "This test"). -/
def addErrorTest (test : UTSGTestCase) (reason : String) : UTSGTestCase :=
  let info := { test.utsg_test_case_info with status := .CRASHED }
  match updateFirstCrashed reason test.utsg_subtests with
  | some subs2 => { test with utsg_test_case_info := info, utsg_subtests := subs2 }
  | none =>
    let diag := crash_template "This test" reason (sep_orig info.output)
    { test with utsg_test_case_info := { info with output := some diag } }

/-- UTSGTestResult.addError: an uncaught non-assertion exception reached the
recorder.  Sets gradable=False, score=0.0, scored=True, rewrites the culprit's
output and the run-level output with the crash diagnostic (reason is the
already-formatted explanation string built from the exception), and calls
self.stop().  has_info is False exactly when the erroring object carries no
utsg_test_case_info (e.g. a setUpClass failure). -/
def addError (s : UTSGTestResult) (test : UTSGTestCase) (has_info : Bool)
    (reason : String) : UTSGTestResult × UTSGTestCase :=
  if has_info then
    ({ s with gradable := false, score := 0, scored := true,
              output := some (crash_template (addErrorCulpritName test) reason
                (sep_orig s.output)),
              stopped := true },
     addErrorTest test reason)
  else
    ({ s with gradable := false, score := 0, scored := true,
              output := some (crash_template "" reason (sep_orig s.output)),
              stopped := true },
     test)

/-- UTSGTestResult.addFailure: log the test's info as a failure. -/
def addFailure (s : UTSGTestResult) (test : UTSGTestCase) :
    UTSGTestResult × UTSGTestCase :=
  let (s, info) := _log_failure s test.utsg_test_case_info
  (s, { test with utsg_test_case_info := info })

/-- UTSGTestResult.addSuccess: log the test's info as a success. -/
def addSuccess (s : UTSGTestResult) (test : UTSGTestCase) :
    UTSGTestResult × UTSGTestCase :=
  let (s, info) := _log_success s test.utsg_test_case_info
  (s, { test with utsg_test_case_info := info })

/-- UTSGTestResult.addUnexpectedSuccess: a test marked as expected to fail
passed.  Sets gradable=False, replaces the run-level message, and calls
self.stop(); neither score nor scored is touched. -/
def addUnexpectedSuccess (s : UTSGTestResult) (test : UTSGTestCase) :
    UTSGTestResult × UTSGTestCase :=
  ({ s with gradable := false,
            message := some (test.utsg_test_case_info.name ++
              " passed when it was marked as expecting to fail."),
            stopped := true },
   test)

/-- UTSGTestResult.addSubTest: called by the unittest driver once per sub-test
recorded error, before stopTest.  When an error is delivered and the parent
test is not already FAILED, the parent's own info is logged as a failure. -/
def addSubTest (s : UTSGTestResult) (test : UTSGTestCase) (err : Option PyExc) :
    UTSGTestResult × UTSGTestCase :=
  match err with
  | none => (s, test)
  | some _ =>
    if test.utsg_test_case_info.status = .FAILED then (s, test)
    else
      let (s, info) := _log_failure s test.utsg_test_case_info
      (s, { test with utsg_test_case_info := info })

/-- The two clamping statements of stopTestRun:
score = max(floor, score) followed by score = min(ceiling, score). -/
def clampScore (floor ceiling r : ℚ) : ℚ := min ceiling (max floor r)

/-- The total summary stopTestRun computes: the hidden-partition summary
combined with the visible-partition summary (first component of the addition,
see addSummary). -/
def totalSummaryOf (s : UTSGTestResult) : UTSGRunSummary :=
  (addSummary (mkRunSummary s.hidden_tests_info)
    (mkRunSummary s.visible_tests_info)).1

/-- The hidden summary after the addition in stopTestRun (second component:
its list was extended in place, see addSummary). -/
def hiddenMutatedOf (s : UTSGTestResult) : UTSGRunSummary :=
  (addSummary (mkRunSummary s.hidden_tests_info)
    (mkRunSummary s.visible_tests_info)).2

/-- The raw (unclamped) score stopTestRun computes when the run is not yet
scored: points earned over points available across the total summary, or zero
when no points were available. -/
def rawScoreOf (s : UTSGTestResult) : ℚ :=
  if (totalSummaryOf s).points_available > 0 then
    (totalSummaryOf s).points_earned / (totalSummaryOf s).points_available
  else 0

/-- The utsg_results dictionary as written to results.json by stopTestRun. -/
structure UTSGResultsArtifact where
  gradable : Bool
  score : ℚ
  tests : List PrairieLearnTestCaseJsonDict
  message : Option String
  output : Option String
  images : List PrairieLearnImage
deriving DecidableEq, Repr

/-- Projection of the recorder state onto the persisted dictionary. -/
def artifactOf (s : UTSGTestResult) : UTSGResultsArtifact :=
  { gradable := s.gradable
    score := s.score
    tests := s.recorded_tests
    message := s.message
    output := s.output
    images := s.images }

/-- UTSGTestResult.stopTestRun.  Fails with UngradableError when the score
floor exceeds the ceiling (raised before any state is touched).  Otherwise:
builds the hidden and visible summaries and their total; the addition's list
aliasing also leaves the concatenated list in the hidden partition (see
addSummary); if not yet scored, the score becomes points_earned over
points_available (zero when nothing was available) clamped between the bounds
and the run is marked scored; the visible outcomes become the recorded tests;
the message is prefixed by the rendered template (given the mutated hidden
summary, the visible summary, the total, and score * 100) when a message was
present, else it is set to the empty string; the artifact is then persisted.
The rendering template lives outside the sources, so the renderer is passed
in as a function argument.  The body after the bounds check is split out as
stopTestRunState; the summaries feeding the scoring are computed from the
incoming state before the aliasing mutation rebinds the hidden partition,
exactly as the Python locals hold summaries whose numeric fields were fixed
at construction. -/
def stopTestRunState (s0 : UTSGTestResult)
    (render : UTSGRunSummary → UTSGRunSummary → UTSGRunSummary → ℚ → String) :
    UTSGTestResult :=
  let hidden_results := hiddenMutatedOf s0
  let visible_results := mkRunSummary s0.visible_tests_info
  let total_results := totalSummaryOf s0
  let s := { s0 with hidden_tests_info := hidden_results.tests }
  let s := if s.scored then s else
    { s with
      score := clampScore s.utsg_score_floor s.utsg_score_ceiling (rawScoreOf s0)
      scored := true }
  let s := { s with
    recorded_tests := s0.visible_tests_info.map as_prairielearn_json_dict }
  let final_results :=
    render hidden_results visible_results total_results (s.score * 100)
  { s with message := match s0.message with
    | some m => some (final_results ++ m)
    | none => some "" }

/-- UTSGTestResult.stopTestRun: the bounds check, raised before any state is
touched, then the combined scoring/recording/rendering step
(stopTestRunState) followed by persisting the artifact. -/
def stopTestRun (s : UTSGTestResult)
    (render : UTSGRunSummary → UTSGRunSummary → UTSGRunSummary → ℚ → String) :
    UTSGTestResult × Except String UTSGResultsArtifact :=
  if s.utsg_score_floor > s.utsg_score_ceiling then
    (s, .error ("score floor set above score score ceiling. " ++
      toString s.utsg_score_floor ++ " > " ++ toString s.utsg_score_ceiling))
  else
    (stopTestRunState s render, .ok (artifactOf (stopTestRunState s render)))

/-- The optional arguments of UTSGTestCase.add_graded_subTest with their
defaults; params carries the extra key/value pairs (rendered with Python str
on both sides). -/
structure GradedSubTestArgs where
  name : Option String := none
  description : Option String := none
  max_points : Option ℚ := none
  points_lost_on_failure : Option ℚ := none
  include_in_results : Bool := true
  hidden : Option Bool := none
  include_params_in_description : Bool := true
  params : List (String × String) := []

/-- UTSGTestCase.add_graded_subTest: build the sub-test's info record,
inheriting description, max_points, points_lost_on_failure and hidden from the
parent when not overridden; the default name is the parent's name followed by
" subtest k" with k the 1-based creation index; when
include_params_in_description is set, the params other than msg are appended
to the description (an absent description counts as empty) after a newline.
The new sub-test is appended to the parent's utsg_subtests list.  Returns the
updated parent and the sub-test's info. -/
def add_graded_subTest (test : UTSGTestCase) (a : GradedSubTestArgs) :
    UTSGTestCase × UTSGTestCaseInfo :=
  let parent := test.utsg_test_case_info
  let info : UTSGTestCaseInfo :=
    { name := a.name.getD (parent.name ++ " subtest " ++
        toString (test.utsg_subtests.length + 1))
      description := match a.description with
        | some d => some d
        | none => parent.description
      max_points := a.max_points.getD parent.max_points
      points_lost_on_failure :=
        a.points_lost_on_failure.getD parent.points_lost_on_failure
      include_in_results := a.include_in_results
      hidden := a.hidden.getD parent.hidden }
  let info := if a.include_params_in_description then
      let param_description := String.intercalate "  \n"
        ((a.params.filter (fun p => decide (p.1 ≠ "msg"))).map
          (fun p => p.1 ++ " = " ++ p.2))
      { info with description := some ((info.description.getD "") ++ "\n" ++
          param_description) }
    else info
  ({ test with utsg_subtests := test.utsg_subtests ++ [info] }, info)

/-- UTSGSubTest.__enter__ effect on the sub-test's info: status RUNNING. -/
def subTestEnter (info : UTSGTestCaseInfo) : UTSGTestCaseInfo :=
  { info with status := .RUNNING }

/-- The status UTSGSubTest.__exit__ assigns from the exception that ended the
scope: no exception PASSED, AssertionError FAILED, anything else CRASHED. -/
def subTestExitStatus : Option PyExc → UTSGTestStatus
  | none => .PASSED
  | some .assertionError => .FAILED
  | some _ => .CRASHED

/-- UTSGSubTest.__exit__: first delegates to the wrapped unittest subTest
context manager whose suppress result is inner_suppress, then resolves the
status from the exception; for a non-assertion exception the suppress result
is forced to False so the exception propagates out of the scope.  Returns the
updated info and the suppress flag handed back to the with statement. -/
def subTestExit (info : UTSGTestCaseInfo) (e : Option PyExc)
    (inner_suppress : Bool) : UTSGTestCaseInfo × Bool :=
  match e with
  | none => ({ info with status := .PASSED }, inner_suppress)
  | some exc =>
    if exc = .assertionError then ({ info with status := .FAILED }, inner_suppress)
    else ({ info with status := .CRASHED }, false)

/-- Model of the external collaborator unittest.TestCase.subTest (standard
library, outside this repository): its context manager records any exception
raised in its body as a sub-test failure or error and suppresses it, so its
exit returns True exactly when an exception was delivered. -/
def unittest_subtest_suppress (e : Option PyExc) : Bool := e.isSome

/-- The operations of the recorder and of the sub-test scope that assign a
test status, one constructor per assignment site in the sources:
startTest (status = RUNNING), UTSGSubTest.__enter__ (RUNNING),
UTSGSubTest.__exit__ (by exception kind), _log_success (PASSED, also reached
from addSuccess), _log_failure (FAILED, also reached from addFailure),
addError (CRASHED), the per-sub-test filing branch of stopTest, the final
parent check of stopTest, and addSubTest delivered with an error. -/
inductive RecorderOp where
  | startTestOp
  | subTestEnterOp
  | subTestExitOp (e : Option PyExc)
  | logSuccessOp
  | logFailureOp
  | addErrorOp
  | fileSubTestOp
  | stopTestParentOp
  | addSubTestErrOp
deriving DecidableEq, Repr

/-- The status transformation each operation performs, transliterated from
the corresponding source site.  The filing branch of stopTest sends PASSED
through _log_success (stays PASSED) and FAILED or CRASHED through _log_failure
(both become FAILED); other statuses are merely reported.  The parent check of
stopTest logs a success only from RUNNING.  addSubTest with an error logs a
failure unless the status is already FAILED. -/
def applyRecorderOp : RecorderOp → UTSGTestStatus → UTSGTestStatus
  | .startTestOp, _ => .RUNNING
  | .subTestEnterOp, _ => .RUNNING
  | .subTestExitOp e, _ => subTestExitStatus e
  | .logSuccessOp, _ => .PASSED
  | .logFailureOp, _ => .FAILED
  | .addErrorOp, _ => .CRASHED
  | .fileSubTestOp, s =>
    if s = .PASSED then (_log_success_info { status := s }).status
    else if s = .FAILED ∨ s = .CRASHED then (_log_failure_info { status := s }).status
    else s
  | .stopTestParentOp, s =>
    if s = .RUNNING then (_log_success_info { status := s }).status else s
  | .addSubTestErrOp, s =>
    if s = .FAILED then s else (_log_failure_info { status := s }).status

/-- The status of one outcome after a sequence of operations, starting from
the dataclass default SCHEDULED. -/
def runRecorderOps (ops : List RecorderOp) : UTSGTestStatus :=
  ops.foldl (fun st op => applyRecorderOp op st) .SCHEDULED

/-- The parent test of the two-sub-test scenario: max_points=10,
points_lost_on_failure=4, every other option at its default. -/
def scenarioParent : UTSGTestCase :=
  { utsg_test_case_info :=
    { name := "T", max_points := 10, points_lost_on_failure := 4 } }

/-- The two-sub-test scenario, replayed exactly as the unittest driver
delivers it: startTest; the first sub-test is created with defaults, entered,
and exits without an exception; the second is created, entered, and exits on
an AssertionError (swallowed by the wrapped unittest context manager, so the
test method runs to completion); the driver then feeds the recorded sub-test
error to addSubTest — which logs the still-RUNNING parent itself as a failure
— and finally calls stopTest, which files both sub-tests.  The parent's
utsg_subtests entries are rebound after each scope exit because the Python
list holds the very info objects the scopes mutate.  Returns the final
recorder state together with the total summary stopTestRun would combine. -/
def scenarioRun : Except String (UTSGTestResult × UTSGRunSummary) := do
  let (s, T) ← startTest {} scenarioParent
  let (T, sub1) := add_graded_subTest T {}
  let sub1 := subTestEnter sub1
  let (sub1, _snd1) := subTestExit sub1 none (unittest_subtest_suppress none)
  let T := { T with utsg_subtests := [sub1] }
  let (T, sub2) := add_graded_subTest T {}
  let sub2 := subTestEnter sub2
  let (sub2, _snd2) := subTestExit sub2 (some .assertionError)
    (unittest_subtest_suppress (some .assertionError))
  let T := { T with utsg_subtests := [sub1, sub2] }
  let (s, T) := addSubTest s T (some .assertionError)
  let s := stopTest s T
  pure (s, totalSummaryOf s)

/-- A renderer producing an empty human-readable summary, standing in for the
external template in concrete runs. -/
def renderNone : UTSGRunSummary → UTSGRunSummary → UTSGRunSummary → ℚ → String :=
  fun _ _ _ _ => ""

/-- A recorder state holding one visible passed test worth 2 points on which
the test code explicitly set 1 point, reached by logging it as a success. -/
def halfScoreState : UTSGTestResult :=
  (_log_success { } { name := "t", max_points := 2, points := some 1 }).1

/-- A recorder state holding one visible passed test at the default
1 max point, reached by logging it as a success. -/
def onePassedState : UTSGTestResult :=
  (_log_success { } { name := "t" }).1

/-- A hidden passed outcome worth 3 points with 3 points earned. -/
def hiddenPassedTest : UTSGTestCaseInfo :=
  { max_points := 3, points := some 3, hidden := true, status := .PASSED }

/-- A one-test summary (default info record). -/
def summaryA : UTSGRunSummary := mkRunSummary [{ }]

/-- A one-test summary over a test named b. -/
def summaryB : UTSGRunSummary := mkRunSummary [{ name := "b" }]

/-! Shared lemmas. -/

lemma le_clampScore (floor ceiling r : ℚ) (h : floor ≤ ceiling) :
    floor ≤ clampScore floor ceiling r :=
  le_min h (le_max_left _ _)

lemma clampScore_le (floor ceiling r : ℚ) :
    clampScore floor ceiling r ≤ ceiling :=
  min_le_left _ _

lemma clampScore_idem (floor ceiling r : ℚ) (h : floor ≤ ceiling) :
    clampScore floor ceiling (clampScore floor ceiling r)
      = clampScore floor ceiling r := by
  unfold clampScore
  rw [max_eq_right (le_min h (le_max_left _ _)), min_eq_right (min_le_left _ _)]

lemma stopTestRun_ok (s : UTSGTestResult)
    (render : UTSGRunSummary → UTSGRunSummary → UTSGRunSummary → ℚ → String)
    (h : s.utsg_score_floor ≤ s.utsg_score_ceiling) :
    stopTestRun s render
      = (stopTestRunState s render, .ok (artifactOf (stopTestRunState s render))) := by
  unfold stopTestRun
  rw [if_neg (not_lt.mpr h)]

lemma stopTestRunState_score (s : UTSGTestResult)
    (render : UTSGRunSummary → UTSGRunSummary → UTSGRunSummary → ℚ → String) :
    (stopTestRunState s render).score
      = if s.scored then s.score
        else clampScore s.utsg_score_floor s.utsg_score_ceiling (rawScoreOf s) := by
  unfold stopTestRunState
  cases hs : s.scored <;> cases hm : s.message <;> simp [hs, hm]

lemma stopTestRunState_gradable (s : UTSGTestResult)
    (render : UTSGRunSummary → UTSGRunSummary → UTSGRunSummary → ℚ → String) :
    (stopTestRunState s render).gradable = s.gradable := by
  unfold stopTestRunState
  cases hs : s.scored <;> cases hm : s.message <;> simp [hs, hm]

lemma stopTestRunState_recorded (s : UTSGTestResult)
    (render : UTSGRunSummary → UTSGRunSummary → UTSGRunSummary → ℚ → String) :
    (stopTestRunState s render).recorded_tests
      = s.visible_tests_info.map as_prairielearn_json_dict := by
  unfold stopTestRunState
  cases hs : s.scored <;> cases hm : s.message <;> simp [hs, hm]

lemma stopTestRunState_message (s : UTSGTestResult)
    (render : UTSGRunSummary → UTSGRunSummary → UTSGRunSummary → ℚ → String) :
    (stopTestRunState s render).message
      = match s.message with
        | some m => some (render (hiddenMutatedOf s) (mkRunSummary s.visible_tests_info)
            (totalSummaryOf s) ((stopTestRunState s render).score * 100) ++ m)
        | none => some "" := by
  rw [stopTestRunState_score]
  unfold stopTestRunState
  cases hs : s.scored <;> cases hm : s.message <;> simp [hs, hm]

lemma postInitStep_points_available (acc : UTSGRunSummary) (t : UTSGTestCaseInfo) :
    (postInitStep acc t).points_available = acc.points_available + t.max_points := by
  simp only [postInitStep]
  split_ifs <;> rfl

lemma postInitStep_points_earned (acc : UTSGRunSummary) (t : UTSGTestCaseInfo) :
    (postInitStep acc t).points_earned
      = acc.points_earned
        + (if t.status = .PASSED ∨ t.status = .FAILED then t.points.getD 0 else 0) := by
  simp only [postInitStep]
  split_ifs <;> simp

lemma foldl_postInit_points_available (l : List UTSGTestCaseInfo) (init : UTSGRunSummary) :
    (l.foldl postInitStep init).points_available
      = init.points_available + (l.map fun t => t.max_points).sum := by
  induction l generalizing init with
  | nil => simp
  | cons t l ih =>
    simp only [List.foldl_cons, List.map_cons, List.sum_cons, ih,
      postInitStep_points_available]
    ring

lemma foldl_postInit_points_earned (l : List UTSGTestCaseInfo) (init : UTSGRunSummary) :
    (l.foldl postInitStep init).points_earned
      = init.points_earned
        + (l.map fun t =>
            if t.status = .PASSED ∨ t.status = .FAILED then t.points.getD 0 else 0).sum := by
  induction l generalizing init with
  | nil => simp
  | cons t l ih =>
    simp only [List.foldl_cons, List.map_cons, List.sum_cons, ih,
      postInitStep_points_earned]
    ring

lemma mkRunSummary_points_available (l : List UTSGTestCaseInfo) :
    (mkRunSummary l).points_available = (l.map fun t => t.max_points).sum := by
  simp [mkRunSummary, foldl_postInit_points_available]

lemma mkRunSummary_points_earned (l : List UTSGTestCaseInfo) :
    (mkRunSummary l).points_earned
      = (l.map fun t =>
          if t.status = .PASSED ∨ t.status = .FAILED then t.points.getD 0 else 0).sum := by
  simp [mkRunSummary, foldl_postInit_points_earned]

/-! Claim theorems. -/

/-- C2 counterexample: a sub-test that crashed (entered its scope, exited on a
non-assertion exception) holds the terminal status CRASHED, yet the sub-test
filing performed at testEnded (stopTest) sends it through the failure logger,
changing the status to FAILED — a transition out of a terminal state, so the
claim that no later operation changes a terminal status is false. -/
theorem C2_counterexample :
    isTerminal (runRecorderOps [.subTestEnterOp, .subTestExitOp (some .other)]) = true ∧
    runRecorderOps [.subTestEnterOp, .subTestExitOp (some .other)] = .CRASHED ∧
    runRecorderOps [.subTestEnterOp, .subTestExitOp (some .other), .fileSubTestOp] = .FAILED ∧
    UTSGTestStatus.FAILED ≠ UTSGTestStatus.CRASHED := by
  decide

/-- C2 (amended): every status-assigning operation moves a non-terminal status
forward along SCHEDULED → RUNNING → terminal (never backwards); a terminal
status, however, is not immutable.  Among the operations the driver can
deliver after an outcome's status became terminal — the sub-test filing and
the final parent check of stopTest, a test-level error (addError, reachable on
a parent already marked FAILED because a crashing sub-test is first reported
to addSubTest and the same exception then reaches the test level), the failure
logger (addFailure), and a further sub-test error report (addSubTest) — the
parent check never changes the status, filing re-marks a CRASHED sub-test
FAILED, addError re-marks any non-CRASHED status CRASHED, and the failure
logger (directly or through addSubTest's guard) re-marks any non-FAILED status
FAILED. -/
theorem C2_forward_only (op : RecorderOp) (s : UTSGTestStatus) :
    (isTerminal s = false → statusRank s ≤ statusRank (applyRecorderOp op s)) ∧
    (isTerminal s = true →
      (op = .fileSubTestOp ∨ op = .stopTestParentOp ∨ op = .addErrorOp ∨
        op = .logFailureOp ∨ op = .addSubTestErrOp) →
      applyRecorderOp op s = s ∨
        (op = .fileSubTestOp ∧ s = .CRASHED ∧ applyRecorderOp op s = .FAILED) ∨
        (op = .addErrorOp ∧ s ≠ .CRASHED ∧ applyRecorderOp op s = .CRASHED) ∨
        ((op = .logFailureOp ∨ op = .addSubTestErrOp) ∧ s ≠ .FAILED ∧
          applyRecorderOp op s = .FAILED)) := by
  cases op <;> try (cases s <;> decide)
  case subTestExitOp e =>
    rcases e with _ | exc
    · cases s <;> decide
    · cases exc <;> cases s <;> decide

/-- Witness for C2_forward_only at addError delivered on a parent already
marked FAILED by a sub-test error report: the status becomes CRASHED. -/
theorem C2_forward_only_witness :
    applyRecorderOp .addErrorOp .FAILED = .FAILED ∨
      (RecorderOp.addErrorOp = .fileSubTestOp ∧ UTSGTestStatus.FAILED = .CRASHED ∧
        applyRecorderOp .addErrorOp .FAILED = .FAILED) ∨
      (RecorderOp.addErrorOp = .addErrorOp ∧ UTSGTestStatus.FAILED ≠ .CRASHED ∧
        applyRecorderOp .addErrorOp .FAILED = .CRASHED) ∨
      ((RecorderOp.addErrorOp = .logFailureOp ∨ RecorderOp.addErrorOp = .addSubTestErrOp) ∧
        UTSGTestStatus.FAILED ≠ .FAILED ∧ applyRecorderOp .addErrorOp .FAILED = .FAILED) :=
  (C2_forward_only .addErrorOp .FAILED).2 (by decide) (by decide)

/-- C4 counterexample: combining two concrete one-test summaries leaves the
first input changed — its tests list has been extended in place with the
second summary's tests (the shallow copy in the addition aliases the list) —
so the claim that both inputs are left unchanged is false. -/
theorem C4_counterexample :
    (addSummary summaryA summaryB).2.tests ≠ summaryA.tests := by
  decide

/-- C4 (amended): combining two run summaries returns a summary whose numeric
fields are the pairwise sums and whose outcome list is the concatenation, and
the second input is never written; but the first input is not left unchanged:
its tests list is extended in place to the concatenation (its numeric fields
are untouched). -/
theorem C4_add_summary (a b : UTSGRunSummary) :
    (addSummary a b).1.num_tests_available = a.num_tests_available + b.num_tests_available ∧
    (addSummary a b).1.num_tests_ran = a.num_tests_ran + b.num_tests_ran ∧
    (addSummary a b).1.num_tests_passed = a.num_tests_passed + b.num_tests_passed ∧
    (addSummary a b).1.num_tests_failed = a.num_tests_failed + b.num_tests_failed ∧
    (addSummary a b).1.points_available = a.points_available + b.points_available ∧
    (addSummary a b).1.points_earned = a.points_earned + b.points_earned ∧
    (addSummary a b).1.tests = a.tests ++ b.tests ∧
    (addSummary a b).2 = { a with tests := a.tests ++ b.tests } :=
  ⟨rfl, rfl, rfl, rfl, rfl, rfl, rfl, rfl⟩

/-- C6: at sub-test scope exit (with the wrapped unittest context manager
suppressing whatever exception it was handed), no exception resolves the
sub-test PASSED, an AssertionError resolves it FAILED with the exception
swallowed (the scope returns True), and any other exception resolves it
CRASHED with the exception not swallowed (the scope returns False), so it
propagates out of the scope. -/
theorem C6_subtest_exit (info : UTSGTestCaseInfo) :
    subTestExit info none (unittest_subtest_suppress none)
      = ({ info with status := .PASSED }, false) ∧
    subTestExit info (some .assertionError)
        (unittest_subtest_suppress (some .assertionError))
      = ({ info with status := .FAILED }, true) ∧
    subTestExit info (some .other) (unittest_subtest_suppress (some .other))
      = ({ info with status := .CRASHED }, false) :=
  ⟨rfl, rfl, rfl⟩

/-- C7: when the configured score floor exceeds the ceiling, stopTestRun
raises the ungradable configuration error, leaving the recorder state — in
particular the stored score and the three partitions — unchanged, producing
no artifact, computing no score and not marking the run scored. -/
theorem C7_floor_above_ceiling (s : UTSGTestResult)
    (render : UTSGRunSummary → UTSGRunSummary → UTSGRunSummary → ℚ → String)
    (h : s.utsg_score_ceiling < s.utsg_score_floor) :
    (stopTestRun s render).1 = s ∧ ∃ msg, (stopTestRun s render).2 = .error msg := by
  unfold stopTestRun
  rw [if_pos h]
  exact ⟨rfl, _, rfl⟩

/-- Witness for C7_floor_above_ceiling at floor 0.6, ceiling 0.4. -/
theorem C7_floor_above_ceiling_witness :
    ((2:ℚ)/5 < 3/5) ∧
    ((stopTestRun { utsg_score_floor := 3/5, utsg_score_ceiling := 2/5 } renderNone).1
        = { utsg_score_floor := 3/5, utsg_score_ceiling := 2/5 } ∧
      ∃ msg, (stopTestRun { utsg_score_floor := 3/5, utsg_score_ceiling := 2/5 }
          renderNone).2 = .error msg) :=
  ⟨by norm_num, C7_floor_above_ceiling _ renderNone (by norm_num)⟩

/-- C8: with bounds inside [0,1] and floor at most ceiling, the clamping step
used by stopTestRun keeps every raw score between floor and ceiling, clamping
twice equals clamping once, and with floor = ceiling = 1/2 a raw score of 1/5
clamps to exactly 1/2. -/
theorem C8_clamp_spec (r floor ceiling : ℚ) (h0 : 0 ≤ floor) (h1 : floor ≤ ceiling)
    (h2 : ceiling ≤ 1) :
    floor ≤ clampScore floor ceiling r ∧ clampScore floor ceiling r ≤ ceiling ∧
    clampScore floor ceiling (clampScore floor ceiling r) = clampScore floor ceiling r ∧
    clampScore (1/2) (1/2) (1/5) = 1/2 := by
  refine ⟨le_clampScore _ _ _ h1, clampScore_le _ _ _, clampScore_idem _ _ _ h1, ?_⟩
  norm_num [clampScore]

/-- Witness for C8_clamp_spec at raw score 3/2 with bounds 0 and 1. -/
theorem C8_clamp_spec_witness :
    ((0:ℚ) ≤ 0) ∧ ((0:ℚ) ≤ 1) ∧ ((1:ℚ) ≤ 1) ∧
    ((0:ℚ) ≤ clampScore 0 1 (3/2) ∧ clampScore 0 1 (3/2) ≤ 1 ∧
      clampScore 0 1 (clampScore 0 1 (3/2)) = clampScore 0 1 (3/2) ∧
      clampScore (1/2) (1/2) (1/5) = 1/2) :=
  ⟨by norm_num, by norm_num, by norm_num,
    C8_clamp_spec (3/2) 0 1 (by norm_num) (by norm_num) (by norm_num)⟩

/-- C1 counterexample: replaying the scenario — parent T with max_points=10,
points_lost_on_failure=4, two default sub-tests, first passing, second failing
on an assertion, nothing explicitly set — yields a combined summary with
points_earned = 2 and points_available = 30, not 6 and 20: when the driver
reports the failed sub-test, addSubTest also logs the parent itself as FAILED
with points -4, so the parent joins the two sub-tests in the totals. -/
theorem C1_counterexample :
    (scenarioRun.map fun p => (p.2.points_earned, p.2.points_available))
      = .ok (2, 30) ∧
    ¬(((2:ℚ), (30:ℚ)) = ((6:ℚ), (20:ℚ))) := by
  constructor
  · norm_num +decide [scenarioRun, scenarioParent, startTest, set_utsg_score_floor,
      set_utsg_score_ceiling, bind, Except.bind, pure, Except.pure, Except.map,
      add_graded_subTest, subTestEnter, subTestExit, unittest_subtest_suppress,
      addSubTest, _log_failure, _log_failure_info, _log_test_result,
      stopTest, _log_success, _log_success_info, totalSummaryOf,
      mkRunSummary, postInitStep, addSummary]
  · norm_num

/-- C1 (amended): in the scenario, sub-test 1 resolves PASSED with points=10,
sub-test 2 resolves FAILED with points=-4, each sub-test inherits
max_points=10; in addition the parent itself is logged FAILED with points=-4
when the failed sub-test is reported, so the visible partition holds the
parent and both sub-tests and the combined summary satisfies
points_earned = 2 and points_available = 30. -/
theorem C1_amended_scenario :
    (scenarioRun.map fun p =>
      (p.1.visible_tests_info.map fun t => (t.name, t.status, t.points, t.max_points),
       p.1.hidden_tests_info, p.1.excluded_tests_info,
       p.2.points_earned, p.2.points_available))
    = .ok ([("T", .FAILED, some (-4), 10),
            ("T subtest 1", .PASSED, some 10, 10),
            ("T subtest 2", .FAILED, some (-4), 10)], [], [], 2, 30) := by
  norm_num +decide [scenarioRun, scenarioParent, startTest, set_utsg_score_floor,
    set_utsg_score_ceiling, bind, Except.bind, pure, Except.pure, Except.map,
    add_graded_subTest, subTestEnter, subTestExit, unittest_subtest_suppress,
    addSubTest, _log_failure, _log_failure_info, _log_test_result,
    stopTest, _log_success, _log_success_info, totalSummaryOf,
    mkRunSummary, postInitStep, addSummary]

/-- C3 counterexample: a run with one visible passed test carrying 1 of 2
points persists score = 1/2 — the clamped fraction — whereas the claim calls
for the clamped score expressed on a 0–100 scale, which here would be 50. -/
theorem C3_counterexample :
    ((stopTestRun halfScoreState renderNone).2.map fun a => a.score) = .ok (1/2) ∧
    ((1:ℚ)/2) ≠ 50 := by
  constructor
  · norm_num +decide [stopTestRun, stopTestRunState, halfScoreState, renderNone,
      artifactOf, totalSummaryOf, hiddenMutatedOf, rawScoreOf, mkRunSummary,
      postInitStep, addSummary, _log_success, _log_success_info, _log_test_result,
      clampScore, Except.map]
  · norm_num

/-- C3 (amended): the score persisted at stopTestRun is the clamped fraction —
within [0,1] whenever the bounds lie in [0,1] and the previously stored score
does — equal to the clamp of the raw ratio when the run was not yet scored and
to the previously stored score otherwise; the 0–100 percentage appears only in
the human-readable message, where the renderer receives score * 100. -/
theorem C3_persisted_score_fraction (s : UTSGTestResult)
    (render : UTSGRunSummary → UTSGRunSummary → UTSGRunSummary → ℚ → String)
    (hfc : s.utsg_score_floor ≤ s.utsg_score_ceiling)
    (h0 : 0 ≤ s.utsg_score_floor) (h1 : s.utsg_score_ceiling ≤ 1)
    (hs0 : 0 ≤ s.score) (hs1 : s.score ≤ 1) :
    ((stopTestRun s render).2.map fun a => a.score)
      = .ok (stopTestRunState s render).score ∧
    0 ≤ (stopTestRunState s render).score ∧
    (stopTestRunState s render).score ≤ 1 ∧
    (s.scored = false →
      (stopTestRunState s render).score
        = clampScore s.utsg_score_floor s.utsg_score_ceiling (rawScoreOf s)) ∧
    (s.scored = true → (stopTestRunState s render).score = s.score) ∧
    (∀ m, s.message = some m →
      (stopTestRunState s render).message
        = some (render (hiddenMutatedOf s) (mkRunSummary s.visible_tests_info)
            (totalSummaryOf s) ((stopTestRunState s render).score * 100) ++ m)) := by
  refine ⟨?_, ?_, ?_, ?_, ?_, ?_⟩
  · rw [stopTestRun_ok s render hfc]
    rfl
  · rw [stopTestRunState_score]
    cases hs : s.scored
    · simp only [hs, Bool.false_eq_true, if_false]
      exact le_trans h0 (le_clampScore _ _ _ hfc)
    · simpa only [hs, if_true] using hs0
  · rw [stopTestRunState_score]
    cases hs : s.scored
    · simp only [hs, Bool.false_eq_true, if_false]
      exact le_trans (clampScore_le _ _ _) h1
    · simpa only [hs, if_true] using hs1
  · intro hs
    rw [stopTestRunState_score, hs]
    simp
  · intro hs
    rw [stopTestRunState_score, hs]
    simp
  · intro m hm
    rw [stopTestRunState_message, hm]

/-- Witness for C3_persisted_score_fraction at the one-test half-score
state carrying a message. -/
theorem C3_persisted_score_fraction_witness :
    (({ halfScoreState with message := some "m" } : UTSGTestResult).utsg_score_floor
        ≤ { halfScoreState with message := some "m" }.utsg_score_ceiling) ∧
    ((0:ℚ) ≤ { halfScoreState with message := some "m" }.utsg_score_floor) ∧
    ({ halfScoreState with message := some "m" }.utsg_score_ceiling ≤ (1:ℚ)) ∧
    ((0:ℚ) ≤ ({ halfScoreState with message := some "m" } : UTSGTestResult).score) ∧
    (({ halfScoreState with message := some "m" } : UTSGTestResult).score ≤ 1) ∧
    (((stopTestRun { halfScoreState with message := some "m" } renderNone).2.map
        fun a => a.score)
      = .ok (stopTestRunState { halfScoreState with message := some "m" } renderNone).score ∧
    0 ≤ (stopTestRunState { halfScoreState with message := some "m" } renderNone).score ∧
    (stopTestRunState { halfScoreState with message := some "m" } renderNone).score ≤ 1 ∧
    (({ halfScoreState with message := some "m" } : UTSGTestResult).scored = false →
      (stopTestRunState { halfScoreState with message := some "m" } renderNone).score
        = clampScore { halfScoreState with message := some "m" }.utsg_score_floor
            { halfScoreState with message := some "m" }.utsg_score_ceiling
            (rawScoreOf { halfScoreState with message := some "m" })) ∧
    (({ halfScoreState with message := some "m" } : UTSGTestResult).scored = true →
      (stopTestRunState { halfScoreState with message := some "m" } renderNone).score
        = ({ halfScoreState with message := some "m" } : UTSGTestResult).score) ∧
    (∀ m, ({ halfScoreState with message := some "m" } : UTSGTestResult).message = some m →
      (stopTestRunState { halfScoreState with message := some "m" } renderNone).message
        = some (renderNone (hiddenMutatedOf { halfScoreState with message := some "m" })
            (mkRunSummary { halfScoreState with message := some "m" }.visible_tests_info)
            (totalSummaryOf { halfScoreState with message := some "m" })
            ((stopTestRunState { halfScoreState with message := some "m" }
               renderNone).score * 100) ++ m))) :=
  ⟨by norm_num +decide [halfScoreState, _log_success, _log_success_info, _log_test_result],
   by norm_num +decide [halfScoreState, _log_success, _log_success_info, _log_test_result],
   by norm_num +decide [halfScoreState, _log_success, _log_success_info, _log_test_result],
   by norm_num +decide [halfScoreState, _log_success, _log_success_info, _log_test_result],
   by norm_num +decide [halfScoreState, _log_success, _log_success_info, _log_test_result],
   C3_persisted_score_fraction { halfScoreState with message := some "m" } renderNone
     (by norm_num +decide [halfScoreState, _log_success, _log_success_info, _log_test_result])
     (by norm_num +decide [halfScoreState, _log_success, _log_success_info, _log_test_result])
     (by norm_num +decide [halfScoreState, _log_success, _log_success_info, _log_test_result])
     (by norm_num +decide [halfScoreState, _log_success, _log_success_info, _log_test_result])
     (by norm_num +decide [halfScoreState, _log_success, _log_success_info, _log_test_result])⟩

/-- C5: when an uncaught non-assertion exception reaches the recorder,
addError sets gradable to false, the score to 0, the scored flag, and the stop
flag halting further testing; the subsequent stopTestRun skips the scoring
step because the run is already scored, so the persisted artifact carries
score exactly 0 and gradable false, and the state's score stays 0. -/
theorem C5_crash_zeroes_score (s : UTSGTestResult) (test : UTSGTestCase)
    (has_info : Bool) (reason : String)
    (render : UTSGRunSummary → UTSGRunSummary → UTSGRunSummary → ℚ → String)
    (h : s.utsg_score_floor ≤ s.utsg_score_ceiling) :
    (addError s test has_info reason).1.gradable = false ∧
    (addError s test has_info reason).1.score = 0 ∧
    (addError s test has_info reason).1.scored = true ∧
    (addError s test has_info reason).1.stopped = true ∧
    ((stopTestRun (addError s test has_info reason).1 render).2.map
        fun a => (a.score, a.gradable))
      = .ok (0, false) ∧
    (stopTestRun (addError s test has_info reason).1 render).1.score = 0 := by
  have hfl : (addError s test has_info reason).1.utsg_score_floor = s.utsg_score_floor := by
    cases has_info <;> rfl
  have hcl : (addError s test has_info reason).1.utsg_score_ceiling = s.utsg_score_ceiling := by
    cases has_info <;> rfl
  have hg : (addError s test has_info reason).1.gradable = false := by
    cases has_info <;> rfl
  have hs0 : (addError s test has_info reason).1.score = 0 := by
    cases has_info <;> rfl
  have hsc : (addError s test has_info reason).1.scored = true := by
    cases has_info <;> rfl
  have hst : (addError s test has_info reason).1.stopped = true := by
    cases has_info <;> rfl
  have hok : s.utsg_score_floor ≤ s.utsg_score_ceiling := h
  refine ⟨hg, hs0, hsc, hst, ?_, ?_⟩
  · rw [stopTestRun_ok _ render (by rw [hfl, hcl]; exact hok)]
    have : (stopTestRunState (addError s test has_info reason).1 render).score = 0 := by
      rw [stopTestRunState_score, hsc, hs0]
      simp
    simp [Except.map, artifactOf, this,
      stopTestRunState_gradable, hg]
  · rw [stopTestRun_ok _ render (by rw [hfl, hcl]; exact hok)]
    rw [stopTestRunState_score, hsc, hs0]
    simp

/-- Witness for C5_crash_zeroes_score: a crash on the default recorder state. -/
theorem C5_crash_zeroes_score_witness :
    (({} : UTSGTestResult).utsg_score_floor ≤ ({} : UTSGTestResult).utsg_score_ceiling) ∧
    ((addError {} { utsg_test_case_info := {} } true "boom").1.gradable = false ∧
     (addError {} { utsg_test_case_info := {} } true "boom").1.score = 0 ∧
     (addError {} { utsg_test_case_info := {} } true "boom").1.scored = true ∧
     (addError {} { utsg_test_case_info := {} } true "boom").1.stopped = true ∧
     ((stopTestRun (addError {} { utsg_test_case_info := {} } true "boom").1
          renderNone).2.map fun a => (a.score, a.gradable))
       = .ok (0, false) ∧
     (stopTestRun (addError {} { utsg_test_case_info := {} } true "boom").1
         renderNone).1.score = 0) :=
  ⟨by norm_num,
   C5_crash_zeroes_score {} { utsg_test_case_info := {} } true "boom" renderNone
     (by norm_num)⟩

/-- C10: after an unexpected success the recorder sets gradable to false and
the stop flag, but leaves the scored flag and the score untouched, so the
subsequent stopTestRun still computes and clamps the score from the recorded
outcomes: the artifact carries the clamped ratio together with gradable
false. -/
theorem C10_unexpected_success_scores (s : UTSGTestResult) (test : UTSGTestCase)
    (render : UTSGRunSummary → UTSGRunSummary → UTSGRunSummary → ℚ → String)
    (hns : s.scored = false)
    (h : s.utsg_score_floor ≤ s.utsg_score_ceiling) :
    (addUnexpectedSuccess s test).1.gradable = false ∧
    (addUnexpectedSuccess s test).1.scored = false ∧
    (addUnexpectedSuccess s test).1.score = s.score ∧
    (addUnexpectedSuccess s test).1.stopped = true ∧
    ((stopTestRun (addUnexpectedSuccess s test).1 render).2.map
        fun a => (a.score, a.gradable))
      = .ok (clampScore s.utsg_score_floor s.utsg_score_ceiling (rawScoreOf s), false) := by
  have hsc : (addUnexpectedSuccess s test).1.scored = false := by
    simpa [addUnexpectedSuccess] using hns
  refine ⟨rfl, hsc, rfl, rfl, ?_⟩
  rw [stopTestRun_ok (addUnexpectedSuccess s test).1 render h]
  have hraw : rawScoreOf (addUnexpectedSuccess s test).1 = rawScoreOf s := rfl
  have : (stopTestRunState (addUnexpectedSuccess s test).1 render).score
      = clampScore s.utsg_score_floor s.utsg_score_ceiling (rawScoreOf s) := by
    rw [stopTestRunState_score, hsc, hraw]
    simp
    rfl
  simp [Except.map, artifactOf, this, stopTestRunState_gradable]
  rfl

/-- Witness for C10_unexpected_success_scores on a run with one visible passed
test: the published score is 1 — nonzero — while gradable is false. -/
theorem C10_unexpected_success_scores_witness :
    (onePassedState.scored = false) ∧
    (onePassedState.utsg_score_floor ≤ onePassedState.utsg_score_ceiling) ∧
    ((addUnexpectedSuccess onePassedState { utsg_test_case_info := {} }).1.gradable = false ∧
     (addUnexpectedSuccess onePassedState { utsg_test_case_info := {} }).1.scored = false ∧
     (addUnexpectedSuccess onePassedState { utsg_test_case_info := {} }).1.score
       = onePassedState.score ∧
     (addUnexpectedSuccess onePassedState { utsg_test_case_info := {} }).1.stopped = true ∧
     ((stopTestRun (addUnexpectedSuccess onePassedState { utsg_test_case_info := {} }).1
          renderNone).2.map fun a => (a.score, a.gradable))
       = .ok (clampScore onePassedState.utsg_score_floor onePassedState.utsg_score_ceiling
           (rawScoreOf onePassedState), false)) ∧
    clampScore onePassedState.utsg_score_floor onePassedState.utsg_score_ceiling
        (rawScoreOf onePassedState) = 1 ∧
    (1:ℚ) ≠ 0 :=
  ⟨by norm_num +decide [onePassedState, _log_success, _log_success_info, _log_test_result],
   by norm_num +decide [onePassedState, _log_success, _log_success_info, _log_test_result],
   C10_unexpected_success_scores onePassedState { utsg_test_case_info := {} } renderNone
     (by norm_num +decide [onePassedState, _log_success, _log_success_info, _log_test_result])
     (by norm_num +decide [onePassedState, _log_success, _log_success_info, _log_test_result]),
   by norm_num +decide [onePassedState, _log_success, _log_success_info, _log_test_result,
     clampScore, rawScoreOf, totalSummaryOf, addSummary, mkRunSummary, postInitStep],
   by norm_num⟩

/-- C9: filing a hidden outcome (include_in_results and hidden both set) adds
its max_points, and its points when its status is PASSED or FAILED, to the
total summary stopTestRun scores from, while the tests list of the published
artifact stays exactly the visible outcomes' records — the hidden record never
appears; filing an excluded outcome (include_in_results unset) changes neither
the total summary nor the artifact; and in every run the artifact's tests list
is precisely the visible partition mapped to its PrairieLearn dictionaries. -/
theorem C9_hidden_and_excluded (s : UTSGTestResult) (t : UTSGTestCaseInfo) (p : ℚ)
    (render : UTSGRunSummary → UTSGRunSummary → UTSGRunSummary → ℚ → String)
    (hp : t.points = some p)
    (hfc : s.utsg_score_floor ≤ s.utsg_score_ceiling) :
    (t.include_in_results = true → t.hidden = true →
      (totalSummaryOf (_log_test_result s t)).points_available
          = (totalSummaryOf s).points_available + t.max_points ∧
      (totalSummaryOf (_log_test_result s t)).points_earned
          = (totalSummaryOf s).points_earned
            + (if t.status = .PASSED ∨ t.status = .FAILED then p else 0) ∧
      ((stopTestRun (_log_test_result s t) render).2.map fun a => a.tests)
          = .ok (s.visible_tests_info.map as_prairielearn_json_dict)) ∧
    (t.include_in_results = false →
      totalSummaryOf (_log_test_result s t) = totalSummaryOf s ∧
      ((stopTestRun (_log_test_result s t) render).2.map fun a => a.tests)
          = .ok (s.visible_tests_info.map as_prairielearn_json_dict)) ∧
    ((stopTestRun s render).2.map fun a => a.tests)
        = .ok (s.visible_tests_info.map as_prairielearn_json_dict) := by
  refine ⟨?_, ?_, ?_⟩
  · intro hinc hhid
    have hlog : _log_test_result s t
        = { s with hidden_tests_info := s.hidden_tests_info ++ [t] } := by
      simp [_log_test_result, hinc, hhid]
    rw [hlog]
    refine ⟨?_, ?_, ?_⟩
    · show (addSummary (mkRunSummary (s.hidden_tests_info ++ [t]))
          (mkRunSummary s.visible_tests_info)).1.points_available = _
      simp only [addSummary, totalSummaryOf, mkRunSummary_points_available,
        List.map_append, List.sum_append, List.map_cons, List.map_nil,
        List.sum_cons, List.sum_nil]
      ring
    · show (addSummary (mkRunSummary (s.hidden_tests_info ++ [t]))
          (mkRunSummary s.visible_tests_info)).1.points_earned = _
      simp only [addSummary, totalSummaryOf, mkRunSummary_points_earned,
        List.map_append, List.sum_append, List.map_cons, List.map_nil,
        List.sum_cons, List.sum_nil, hp, Option.getD_some]
      split_ifs <;> ring
    · rw [stopTestRun_ok { s with hidden_tests_info := s.hidden_tests_info ++ [t] }
        render hfc]
      simp [Except.map, artifactOf, stopTestRunState_recorded]
  · intro hinc
    have hlog : _log_test_result s t
        = { s with excluded_tests_info := s.excluded_tests_info ++ [t] } := by
      simp [_log_test_result, hinc]
    rw [hlog]
    refine ⟨rfl, ?_⟩
    rw [stopTestRun_ok { s with excluded_tests_info := s.excluded_tests_info ++ [t] }
      render hfc]
    simp [Except.map, artifactOf, stopTestRunState_recorded]
  · rw [stopTestRun_ok s render hfc]
    simp [Except.map, artifactOf, stopTestRunState_recorded]

/-- Witness for C9_hidden_and_excluded: the hidden passed outcome worth 3
points with 3 points earned, filed on the empty recorder state. -/
theorem C9_hidden_and_excluded_witness :
    (hiddenPassedTest.points = some 3) ∧
    (({} : UTSGTestResult).utsg_score_floor ≤ ({} : UTSGTestResult).utsg_score_ceiling) ∧
    ((hiddenPassedTest.include_in_results = true → hiddenPassedTest.hidden = true →
      (totalSummaryOf (_log_test_result {} hiddenPassedTest)).points_available
          = (totalSummaryOf {}).points_available + hiddenPassedTest.max_points ∧
      (totalSummaryOf (_log_test_result {} hiddenPassedTest)).points_earned
          = (totalSummaryOf {}).points_earned
            + (if hiddenPassedTest.status = .PASSED ∨ hiddenPassedTest.status = .FAILED
               then (3:ℚ) else 0) ∧
      ((stopTestRun (_log_test_result {} hiddenPassedTest) renderNone).2.map
          fun a => a.tests)
          = .ok (({} : UTSGTestResult).visible_tests_info.map as_prairielearn_json_dict)) ∧
    (hiddenPassedTest.include_in_results = false →
      totalSummaryOf (_log_test_result {} hiddenPassedTest) = totalSummaryOf {} ∧
      ((stopTestRun (_log_test_result {} hiddenPassedTest) renderNone).2.map
          fun a => a.tests)
          = .ok (({} : UTSGTestResult).visible_tests_info.map as_prairielearn_json_dict)) ∧
    ((stopTestRun ({} : UTSGTestResult) renderNone).2.map fun a => a.tests)
        = .ok (({} : UTSGTestResult).visible_tests_info.map as_prairielearn_json_dict)) :=
  ⟨rfl, by norm_num,
   C9_hidden_and_excluded {} hiddenPassedTest 3 renderNone rfl (by norm_num)⟩

end UTSG
